import Mathlib

/-!
# Verification of the multi-agent coordination core

Shallow embedding of the repository's coordination layer
(`src/agents/cost_optimizer.py`, `src/agents/observability.py`,
`src/agents/orchestrator.py`) and proofs about its stated properties.

Modelling conventions:
* Python dictionaries that serve as heterogeneous payloads are modelled by the
  inductive `JValue` (Python dicts are insertion ordered, hence association
  lists); Python truthiness and `len` are modelled explicitly.
* Python floats are modelled by exact rationals `ℚ`; the properties proved
  (positivity, equality of accumulators that are not touched) are robust under
  this idealisation.
* Python exceptions are modelled by `Except`/`Option` results; a raising call
  returns the state as mutated up to the raise point.
* `hashlib.md5(...).hexdigest()` is a fixed deterministic function of the key
  data string, so the cache key is modelled by the key data string itself:
  equality of key data gives equality of digests, and (absent md5 collisions,
  which the code does not defend against) cache behaviour is exactly behaviour
  keyed by the key data.
* Wall-clock timestamps and durations (from `time.time()`/`datetime.now()`)
  are not modelled; no claim under consideration depends on them.
-/

/-- A Python value as it may appear in a `context` dictionary.
`obj` stands for a Python object that `json.dumps` cannot serialize
(it raises `TypeError` on it). -/
inductive JValue where
  | null
  | bool (b : Bool)
  | num (q : ℚ)
  | str (s : String)
  | list (xs : List JValue)
  | dict (fields : List (String × JValue))
  | obj (tag : Nat)

/-- An insertion-ordered Python dict `str -> value` (a `context`). -/
abbrev Ctx := List (String × JValue)

/-- Python truthiness of a value (`bool(v)`). -/
def pyTruthy : JValue → Bool
  | .null => false
  | .bool b => b
  | .num q => q ≠ 0
  | .str s => s ≠ ""
  | .list xs => !xs.isEmpty
  | .dict fs => !fs.isEmpty
  | .obj _ => true

/-- Python `len(v)`: defined on strings, lists and dicts, raises `TypeError`
(`none`) on other values. -/
def pyLen : JValue → Option Nat
  | .str s => some s.length
  | .list xs => some xs.length
  | .dict fs => some fs.length
  | _ => none

/-- Python `str(v)` — a deterministic rendering.  No claim inspects the exact
text, only that the conversion always succeeds. -/
def pyStr : JValue → String
  | .null => "None"
  | .bool b => if b then "True" else "False"
  | .num q => toString q.num ++ "/" ++ toString q.den
  | .str s => s
  | .list xs => "[" ++ String.intercalate ", " (xs.map fun _ => "_") ++ "]"
  | .dict fs => "\x7b" ++ String.intercalate ", " (fs.map fun kv => kv.1) ++ "\x7d"
  | .obj t => "<object " ++ toString t ++ ">"

/-- JSON string literal for a key or string value (escaping backslash and
quote; a fixed deterministic rendering). -/
def jsonStr (s : String) : String :=
  "\"" ++ String.join (s.toList.map fun c =>
    if c = '"' then "\\\"" else if c = '\\' then "\\\\" else String.singleton c) ++ "\""

/-- Key ordering used by `json.dumps(..., sort_keys=True)`: compare rendered
object members by their key. -/
def keyLE (a b : String × String) : Prop := a.1 ≤ b.1

instance : DecidableRel keyLE := fun a b => inferInstanceAs (Decidable (a.1 ≤ b.1))

instance : IsTotal (String × String) keyLE := ⟨fun a b => le_total a.1 b.1⟩

instance : IsTrans (String × String) keyLE := ⟨fun _ _ _ h1 h2 => le_trans h1 h2⟩

mutual

/-- `json.dumps(v, sort_keys=True)`: `none` models the `TypeError` raised on a
non-serializable value.  Object members are emitted in sorted key order. -/
def jsonDumps : JValue → Option String
  | .null => some "null"
  | .bool b => some (if b then "true" else "false")
  | .num q => some (toString q.num ++ "/" ++ toString q.den)
  | .str s => some (jsonStr s)
  | .list xs => do
      let parts ← dumpsArr xs
      return "[" ++ String.intercalate ", " parts ++ "]"
  | .dict fs => do
      let rendered ← dumpsObj fs
      let sorted := rendered.insertionSort keyLE
      return "\x7b" ++
        String.intercalate ", " (sorted.map fun kv => jsonStr kv.1 ++ ": " ++ kv.2) ++ "\x7d"
  | .obj _ => none

/-- Serialize the elements of a JSON array. -/
def dumpsArr : List JValue → Option (List String)
  | [] => some []
  | x :: xs => do
      let s ← jsonDumps x
      let rest ← dumpsArr xs
      return s :: rest

/-- Serialize the members of a JSON object (values rendered, keys kept). -/
def dumpsObj : List (String × JValue) → Option (List (String × String))
  | [] => some []
  | kv :: fs => do
      let s ← jsonDumps kv.2
      let rest ← dumpsObj fs
      return (kv.1, s) :: rest

end

/-! ## Cost optimizer (`src/agents/cost_optimizer.py`) -/

/-- `ModelTier` enumeration. -/
inductive ModelTier where
  | SMALL
  | MEDIUM
  | LARGE
deriving DecidableEq

/-- `tier.value` — the model-name string each tier carries. -/
def tierValue : ModelTier → String
  | .SMALL => "gpt-3.5-turbo"
  | .MEDIUM => "gpt-3.5-turbo-16k"
  | .LARGE => "gpt-4"

/-- Cost per 1K input tokens (`self.costs[tier]["input"]`). -/
def inputCost : ModelTier → ℚ
  | .SMALL => 15 / 10000
  | .MEDIUM => 3 / 1000
  | .LARGE => 3 / 100

/-- Cost per 1K output tokens (`self.costs[tier]["output"]`). -/
def outputCost : ModelTier → ℚ
  | .SMALL => 2 / 1000
  | .MEDIUM => 4 / 1000
  | .LARGE => 6 / 100

/-- The fixed "simple" task-type set. -/
def simple_tasks : List String := ["extract_po_number", "parse_date", "extract_quantity"]

/-- The fixed "medium" task-type set. -/
def medium_tasks : List String := ["classify_intent", "extract_entities", "format_response"]

/-- The fixed "complex" task-type set. -/
def complex_tasks : List String := ["multi_step_reasoning", "decision_making", "coordination"]

/-- `CostOptimizer.analyze_task_complexity`.  `context.get("text", "")`
followed by `len(...)` raises `TypeError` (modelled by `.error`) when the
`text` value is not a string/list/dict; `context.get("requires_reasoning",
False)` is used for its truthiness. -/
def analyze_task_complexity (task_type : String) (context : Ctx) :
    Except String ModelTier :=
  if task_type ∈ simple_tasks then
    .ok .SMALL
  else if task_type ∈ medium_tasks then
    match pyLen ((context.lookup "text").getD (.str "")) with
    | none => .error "TypeError: object has no len()"
    | some n => if n < 500 then .ok .SMALL else .ok .MEDIUM
  else if task_type ∈ complex_tasks
      || pyTruthy ((context.lookup "requires_reasoning").getD (.bool false)) then
    .ok .LARGE
  else
    .ok .MEDIUM

/-- `CostOptimizer._generate_cache_key`: the key data string
`f"{task_type}:{prompt}:{json.dumps(context, sort_keys=True)}"`.
The md5 hexdigest applied by the code is a fixed deterministic function of
this string, so the key is modelled by the key data itself (see header).
`none` models the `TypeError` from `json.dumps` on a non-serializable
context value. -/
def _generate_cache_key (task_type prompt : String) (context : Ctx) : Option String :=
  (jsonDumps (.dict context)).map fun j => task_type ++ ":" ++ prompt ++ ":" ++ j

/-- The optimizer's mutable state: the response cache (a Python dict, i.e. an
insertion-ordered association list) and the `self.stats` counters, with
`calls_by_tier` split into its three fixed keys. -/
structure OptState where
  cache : List (String × String)
  cache_hits : Nat
  cache_misses : Nat
  total_cost : ℚ
  calls_small : Nat
  calls_medium : Nat
  calls_large : Nat
deriving DecidableEq

/-- The optimizer's initial state (`CostOptimizer.__init__`). -/
def initOpt : OptState := ⟨[], 0, 0, 0, 0, 0, 0⟩

/-- The body of `CostOptimizer.cache_response` with the capacity as a
parameter (the code fixes it to 1000): `self.cache[key] = response`
(update in place if the key exists, else append), then if the size exceeds
the capacity, delete the oldest entry (`next(iter(self.cache))`, the head). -/
def cacheInsertCap (cap : Nat) (cache : List (String × String)) (key val : String) :
    List (String × String) :=
  let c :=
    if (cache.lookup key).isSome then
      cache.map fun kv => if kv.1 = key then (key, val) else kv
    else
      cache ++ [(key, val)]
  if c.length > cap then c.tail else c

/-- `CostOptimizer.get_cached_response`: computes the key (propagating a
serialization `TypeError` as `none`), then returns the cached value and
bumps `cache_hits`, or returns `None` and bumps `cache_misses`. -/
def get_cached_response (st : OptState) (task_type prompt : String) (context : Ctx) :
    Option (Option String × OptState) :=
  match _generate_cache_key task_type prompt context with
  | none => none
  | some k =>
    match st.cache.lookup k with
    | some v => some (some v, { st with cache_hits := st.cache_hits + 1 })
    | none => some (none, { st with cache_misses := st.cache_misses + 1 })

/-- `CostOptimizer.cache_response` (capacity fixed to 1000 by the code). -/
def cache_response (st : OptState) (task_type prompt : String) (context : Ctx)
    (response : String) : Option OptState :=
  (_generate_cache_key task_type prompt context).map fun k =>
    { st with cache := cacheInsertCap 1000 st.cache k response }

/-- Bump `self.stats["calls_by_tier"][tier.value]`. -/
def bumpTier (st : OptState) : ModelTier → OptState
  | .SMALL => { st with calls_small := st.calls_small + 1 }
  | .MEDIUM => { st with calls_medium := st.calls_medium + 1 }
  | .LARGE => { st with calls_large := st.calls_large + 1 }

/-- The external inference provider capability (`self._call_openai`):
given a tier and a prompt it returns a response and a cost, or fails with an
error message. -/
def Provider : Type := ModelTier → String → Except String (String × ℚ)

/-- The mock provider response texts (`_call_openai`, `OPENAI_AVAILABLE`
false). -/
def mockResponse : ModelTier → String
  | .SMALL => "Mock response from gpt-3.5-turbo"
  | .MEDIUM => "Detailed mock response from gpt-3.5-turbo-16k"
  | .LARGE => "Comprehensive mock response from gpt-4 with reasoning"

/-- The mock provider cost formula: token counts estimated as `len/4`,
`(input_tokens * costs[tier]["input"] + output_tokens * costs[tier]["output"]) / 1000`. -/
def mockCost (tier : ModelTier) (prompt : String) : ℚ :=
  ((prompt.length : ℚ) / 4 * inputCost tier +
    ((mockResponse tier).length : ℚ) / 4 * outputCost tier) / 1000

/-- `CostOptimizer._call_openai` in its demo configuration (no OpenAI client):
deterministic mock response and token-estimated cost, never fails. -/
def callOpenAI : Provider := fun tier prompt => .ok (mockResponse tier, mockCost tier prompt)

/-- The result of a completed `call_llm`: the returned `(response, cost)`
pair, the optimizer state after the call, and the provider invocations the
call performed (in order). -/
structure CallResult where
  response : String
  cost : ℚ
  state : OptState
  provider_calls : List (ModelTier × String)
deriving DecidableEq

/-- The never-cascade task-type set of `call_llm`. -/
def never_cascade : List String := ["extract_po_number", "parse_date"]

/-- The authoritative-tier tail of `call_llm`: invoke the provider at the
selected tier (failure is fatal), record the call under that tier, add its
cost to `total_cost`, cache the response and return. -/
def authoritativeCall (P : Provider) (st : OptState) (task_type prompt : String)
    (context : Ctx) (tier : ModelTier) (calls : List (ModelTier × String)) :
    Except String CallResult :=
  match P tier prompt with
  | .error e => .error e
  | .ok (response, cost) =>
    let st1 := bumpTier st tier
    let st2 := { st1 with total_cost := st1.total_cost + cost }
    match cache_response st2 task_type prompt context response with
    | none => .error "TypeError"
    | some st3 => .ok ⟨response, cost, st3, calls ++ [(tier, prompt)]⟩

/-- The tail of `call_llm` after the cache probe missed (or hit a falsy
value), i.e. source lines 110-134: tier determination
(`force_tier or analyze_task_complexity`); the speculative SMALL-tier
cascade for eligible task types, whose provider failure is swallowed by the
bare `except` and whose response is accepted only when longer than 10
characters; otherwise the authoritative call at the selected tier. -/
def call_llm_uncached (P : Provider) (st1 : OptState) (task_type prompt : String)
    (context : Ctx) (force_tier : Option ModelTier) : Except String CallResult :=
  match (match force_tier with
         | some t => Except.ok t
         | none => analyze_task_complexity task_type context) with
  | .error e => .error e
  | .ok tier =>
    if force_tier.isNone && !(never_cascade.contains task_type) then
      match P .SMALL prompt with
      | .ok (response, cost) =>
        if response.length > 10 then
          let st2 := bumpTier st1 .SMALL
          match cache_response st2 task_type prompt context response with
          | none => .error "TypeError"
          | some st3 => .ok ⟨response, cost, st3, [(.SMALL, prompt)]⟩
        else
          authoritativeCall P st1 task_type prompt context tier [(.SMALL, prompt)]
      | .error _ =>
        authoritativeCall P st1 task_type prompt context tier [(.SMALL, prompt)]
    else
      authoritativeCall P st1 task_type prompt context tier []

/-- `CostOptimizer.call_llm`, parameterized by the provider capability:
cache probe first (`if cached:` — Python truthiness, so an empty cached
string falls through), then `call_llm_uncached`. -/
def call_llm (P : Provider) (st : OptState) (task_type prompt : String)
    (context : Ctx) (force_tier : Option ModelTier) : Except String CallResult :=
  match get_cached_response st task_type prompt context with
  | none => .error "TypeError"
  | some (cached, st1) =>
    if (cached.getD "") ≠ "" then
      .ok ⟨cached.getD "", 0, st1, []⟩
    else
      call_llm_uncached P st1 task_type prompt context force_tier

/-! ## Observability ledger (`src/agents/observability.py`) -/

/-- One logged event.  The wall-clock `timestamp` field is not modelled (see
header); `context` holds the serialized context string. -/
structure Event where
  agent : String
  action : String
  context : String
  outcome : String
  cost : ℚ
  duration_ms : ℚ
  execution_id : String
deriving DecidableEq

/-- The per-agent running metrics accumulator (`self.agent_metrics[...]`). -/
structure AgentMetric where
  total_actions : Nat
  successful_actions : Nat
  failed_actions : Nat
  total_cost : ℚ
  total_time : ℚ
  overrides : Nat
deriving DecidableEq

/-- The `defaultdict` default: all counters zero. -/
def AgentMetric.init : AgentMetric := ⟨0, 0, 0, 0, 0, 0⟩

/-- The ledger state: the bounded event list plus the metrics `defaultdict`
(an association list; absent agents read as `AgentMetric.init`). -/
structure LogState where
  events : List Event
  metrics : List (String × AgentMetric)
deriving DecidableEq

/-- `ObservabilityLogger.__init__`. -/
def initLog : LogState := ⟨[], []⟩

/-- Read an agent's accumulator with the `defaultdict` default. -/
def getMetric (st : LogState) (agent : String) : AgentMetric :=
  (st.metrics.lookup agent).getD AgentMetric.init

/-- Write an agent's accumulator (update in place, or register the agent —
`defaultdict` access order is irrelevant to the claims under study). -/
def setMetric (st : LogState) (agent : String) (m : AgentMetric) : LogState :=
  if (st.metrics.lookup agent).isSome then
    { st with metrics := st.metrics.map fun kv => if kv.1 = agent then (agent, m) else kv }
  else
    { st with metrics := st.metrics ++ [(agent, m)] }

/-- The context serialization of `log_event`:
`json.dumps(context) if isinstance(context, dict) else str(context)`. -/
def serializeCtx (context : JValue) : Option String :=
  match context with
  | .dict fs => jsonDumps (.dict fs)
  | v => some (pyStr v)

/-- The per-event accumulator update of `log_event`: `total_actions += 1`;
`successful_actions` on outcome `"success"`, **else** `failed_actions`
(so any non-success outcome, including `"overridden"`, lands in
`failed_actions`); cost and time accumulate. -/
def eventBump (m : AgentMetric) (outcome : String) (cost duration_ms : ℚ) : AgentMetric :=
  { m with
    total_actions := m.total_actions + 1,
    successful_actions := if outcome = "success" then m.successful_actions + 1
      else m.successful_actions,
    failed_actions := if outcome = "success" then m.failed_actions
      else m.failed_actions + 1,
    total_cost := m.total_cost + cost,
    total_time := m.total_time + duration_ms }

/-- `ObservabilityLogger.log_event`.  A dict context containing a
non-serializable value makes `json.dumps` raise `TypeError` (`none`, state
unchanged since the raise occurs while building the event); any other value
is stringified.  On success: append the event, update the agent's
accumulator, then truncate the event list to the most recent 1000
entries. -/
def log_event (st : LogState) (agent_name action : String) (context : JValue)
    (outcome : String) (cost duration_ms : ℚ) (execution_id : Option String) :
    Option LogState :=
  match serializeCtx context with
  | none => none
  | some cs =>
    let ev : Event :=
      ⟨agent_name, action, cs, outcome, cost, duration_ms,
        execution_id.getD ("exec_" ++ toString st.events.length)⟩
    let st1 := { st with events := st.events ++ [ev] }
    let st2 := setMetric st1 agent_name (eventBump (getMetric st1 agent_name)
      outcome cost duration_ms)
    some (if st2.events.length > 1000 then
      { st2 with events := st2.events.drop (st2.events.length - 1000) }
    else st2)

/-- `ObservabilityLogger.log_decision`: convenience wrapper around
`log_event` with a decision-marker action and a context embedding
`{reasoning, inputs, decision}`. -/
def log_decision (st : LogState) (agent_name decision reasoning : String)
    (inputs : JValue) (execution_id : Option String) : Option LogState :=
  log_event st agent_name ("decision: " ++ decision)
    (.dict [("reasoning", .str reasoning), ("inputs", inputs), ("decision", .str decision)])
    "success" 0 0 execution_id

/-- `ObservabilityLogger.log_override`: bump the agent's override counter
**first**, then log an event with outcome `"overridden"`.  The inner
`log_event` always succeeds here (its context dict holds only strings), so
the partial-mutation fallback is unreachable. -/
def log_override (st : LogState) (agent_name original_decision override_reason : String) :
    LogState :=
  let st1 := setMetric st agent_name
    { getMetric st agent_name with overrides := (getMetric st agent_name).overrides + 1 }
  (log_event st1 agent_name "override"
    (.dict [("original_decision", .str original_decision),
            ("override_reason", .str override_reason)])
    "overridden" 0 0 none).getD st1

/-- One ledger operation, for quantifying over operation sequences. -/
inductive LogOp where
  | event (agent_name action : String) (context : JValue) (outcome : String)
      (cost duration_ms : ℚ) (execution_id : Option String)
  | decision (agent_name decision reasoning : String) (inputs : JValue)
      (execution_id : Option String)
  | override (agent_name original_decision override_reason : String)

/-- Apply one ledger operation; an operation that raises (`none`) leaves the
state unchanged (the raise happens before any mutation in `log_event`). -/
def runLogOp (st : LogState) : LogOp → LogState
  | .event a act c oc cost d eid => (log_event st a act c oc cost d eid).getD st
  | .decision a dec r inp eid => (log_decision st a dec r inp eid).getD st
  | .override a d r => log_override st a d r

/-- Run a sequence of ledger operations from the initial ledger state. -/
def runLog (ops : List LogOp) : LogState := ops.foldl runLogOp initLog

/-! ## Orchestrator (`src/agents/orchestrator.py`) -/

/-- One agent-registry slot: `status` and `active_tasks` (an integer, since
the code floors decrements at zero with `max(0, ...)`).  The static `name`
and `description` fields carry no behaviour and are omitted. -/
structure AgentInfo where
  status : String
  active_tasks : ℤ
deriving DecidableEq

/-- The fixed agent registry built in `AgentOrchestrator.__init__`. -/
structure Agents where
  inbox_agent : AgentInfo
  po_tracker : AgentInfo
  change_manager : AgentInfo
  routing_agent : AgentInfo
deriving DecidableEq

/-- All agents start `idle` with no active tasks. -/
def initAgents : Agents := ⟨⟨"idle", 0⟩, ⟨"idle", 0⟩, ⟨"idle", 0⟩, ⟨"idle", 0⟩⟩

/-- The orchestrator's mutable state: the agent registry, the cost optimizer
and the observability ledger it owns. -/
structure OrchState where
  agents : Agents
  opt : OptState
  log : LogState
deriving DecidableEq

/-- `AgentOrchestrator.__init__`. -/
def initOrch : OrchState := ⟨initAgents, initOpt, initLog⟩

/-- The structured result of `EmailParser.extract_entities` (the external
entity-extractor collaborator; its regex internals are out of scope). -/
structure Entities where
  po_number : Option String
  quantities : List String
  dates : List String
  part_numbers : List String
  prices : List String
  confidence : ℚ
deriving DecidableEq

/-- The structured result of `EmailParser.classify_intent`. -/
structure IntentResult where
  intent : String
  confidence : ℚ
  scores : List (String × Int)
deriving DecidableEq

/-- Render an `Entities` record as the Python dict it is in the source (for
log contexts).  Built from serializable constructors only. -/
def entitiesJ (e : Entities) : JValue :=
  .dict [("po_number", match e.po_number with | some s => .str s | none => .null),
         ("quantities", .list (e.quantities.map .str)),
         ("dates", .list (e.dates.map .str)),
         ("part_numbers", .list (e.part_numbers.map .str)),
         ("prices", .list (e.prices.map .str)),
         ("confidence", .num e.confidence)]

/-- Render an `IntentResult` record as the Python dict it is in the source. -/
def intentJ (i : IntentResult) : JValue :=
  .dict [("intent", .str i.intent),
         ("confidence", .num i.confidence),
         ("scores", .dict (i.scores.map fun kv => (kv.1, .num (kv.2 : ℚ))))]

/-- The entity-extractor collaborator: `extract_entities(body, subject)`,
which may raise. -/
def Extractor : Type := String → String → Except String Entities

/-- The intent-classifier collaborator: `classify_intent(subject, body)`,
which may raise. -/
def Classifier : Type := String → String → Except String IntentResult

/-- `AgentOrchestrator._route_email`: the fixed routing table with default
`inbox_agent`.  (The `entities` parameter is unused in the source too.) -/
def _route_email (intent : String) (_entities : Entities) : String :=
  (([("delivery_delay", "po_tracker"),
     ("price_change", "change_manager"),
     ("quantity_change", "change_manager"),
     ("acknowledgement_request", "po_tracker"),
     ("quality_issue", "change_manager"),
     ("general_inquiry", "inbox_agent")] : List (String × String)).lookup intent).getD
    "inbox_agent"

/-- The result dict of a stage workflow (`po_number` only present for the
`po_tracker` stage). -/
structure WorkflowResult where
  action : String
  cost : ℚ
  po_number : Option (Option String)
deriving DecidableEq

/-- Python `f"{x}"` of an optional string (`None` renders as `"None"`). -/
def pyStrOpt : Option String → String
  | some s => s
  | none => "None"

/-- `AgentOrchestrator._po_tracker_workflow`: mark `po_tracker` active and
bump its counter, issue one `call_llm` tagged `decision_making` (a provider
failure propagates, leaving the agent marked active), log the chosen action,
then restore the agent (`idle`, counter decremented floored at zero). -/
def _po_tracker_workflow (P : Provider) (st : OrchState) (intent : IntentResult)
    (entities : Entities) (sender execution_id : String) :
    Except String WorkflowResult × OrchState :=
  let st1 := { st with agents := { st.agents with
    po_tracker := ⟨"active", st.agents.po_tracker.active_tasks + 1⟩ } }
  let po := entities.po_number
  let prompt := "PO " ++ pyStrOpt po ++ " has delivery update. Intent: " ++
    intent.intent ++ ". Dates: " ++ pyStr (.list (entities.dates.map .str))
  match call_llm P st1.opt "decision_making" prompt
      [("intent", intentJ intent), ("entities", entitiesJ entities)] none with
  | .error e => (.error e, st1)
  | .ok res =>
    let st2 := { st1 with opt := res.state }
    let action :=
      if intent.intent = "delivery_delay" then "escalate_if_critical"
      else if intent.intent = "acknowledgement_request" then "send_acknowledgement"
      else "update_erp"
    match log_event st2.log "po_tracker" action
        (.dict [("po_number", match po with | some s => .str s | none => .null),
                ("sender", .str sender)])
        "success" res.cost 0 (some execution_id) with
    | none => (.error "TypeError", st2)
    | some l =>
      let st3 := { st2 with log := l }
      let st4 := { st3 with agents := { st3.agents with
        po_tracker := ⟨"idle", max 0 (st3.agents.po_tracker.active_tasks - 1)⟩ } }
      (.ok ⟨action, res.cost, some po⟩, st4)

/-- `AgentOrchestrator._change_manager_workflow`: same shape for
`change_manager`, one `call_llm` tagged `multi_step_reasoning`. -/
def _change_manager_workflow (P : Provider) (st : OrchState) (intent : IntentResult)
    (entities : Entities) (sender execution_id : String) :
    Except String WorkflowResult × OrchState :=
  let st1 := { st with agents := { st.agents with
    change_manager := ⟨"active", st.agents.change_manager.active_tasks + 1⟩ } }
  let prompt := "Analyze impact of " ++ intent.intent ++ " for supplier " ++
    sender ++ ". Entities: " ++ pyStr (entitiesJ entities)
  match call_llm P st1.opt "multi_step_reasoning" prompt
      [("intent", intentJ intent), ("entities", entitiesJ entities)] none with
  | .error e => (.error e, st1)
  | .ok res =>
    let st2 := { st1 with opt := res.state }
    let action :=
      if intent.intent = "price_change" ∨ intent.intent = "quantity_change" then
        "requires_approval"
      else "log_change"
    match log_event st2.log "change_manager" action
        (.dict [("intent", .str intent.intent), ("sender", .str sender)])
        "success" res.cost 0 (some execution_id) with
    | none => (.error "TypeError", st2)
    | some l =>
      let st3 := { st2 with log := l }
      let st4 := { st3 with agents := { st3.agents with
        change_manager := ⟨"idle", max 0 (st3.agents.change_manager.active_tasks - 1)⟩ } }
      (.ok ⟨action, res.cost, none⟩, st4)

/-- `AgentOrchestrator._execute_workflow`: dispatch to the routed agent's
stage workflow; any other destination logs nothing and costs nothing. -/
def _execute_workflow (P : Provider) (st : OrchState) (agent_name : String)
    (intent : IntentResult) (entities : Entities) (sender execution_id : String) :
    Except String WorkflowResult × OrchState :=
  if agent_name = "po_tracker" then
    _po_tracker_workflow P st intent entities sender execution_id
  else if agent_name = "change_manager" then
    _change_manager_workflow P st intent entities sender execution_id
  else
    (.ok ⟨"logged", 0, none⟩, st)

/-- The structured result returned by `process_email`. -/
structure ProcessResult where
  execution_id : String
  intent : String
  routed_agent : String
  entities : Entities
  workflow_result : WorkflowResult
  cost : ℚ
deriving DecidableEq

/-- The `except Exception` handler of `process_email`: log a failure event
under agent `"orchestrator"` with the error message, then re-raise.  (The
context dict holds one string, so the inner `log_event` cannot itself
raise; the fallback keeps the function total.) -/
def processFail (st : OrchState) (e execution_id : String) :
    Except String ProcessResult × OrchState :=
  match log_event st.log "orchestrator" "process_email" (.dict [("error", .str e)])
      "failure" 0 0 (some execution_id) with
  | some l => (.error e, { st with log := l })
  | none => (.error e, st)

/-- `AgentOrchestrator.process_email`, parameterized by the two parser
collaborators and the provider.  The generated execution id (derived from
`time.time()` and `hash(...)`) is passed as a parameter; durations are
modelled as 0 (see header).  Mirrors the source: mark `inbox_agent` active,
parse and classify (exceptions go to the handler, leaving the registry as
mutated so far), log the parse event, mark `routing_agent` active, route and
log the decision, execute the stage workflow, and on success restore
`inbox_agent` and `routing_agent` and return the result structure. -/
def process_email (E : Extractor) (C : Classifier) (P : Provider) (st : OrchState)
    (sender subject body execution_id : String) :
    Except String ProcessResult × OrchState :=
  let st1 := { st with agents := { st.agents with
    inbox_agent := ⟨"active", st.agents.inbox_agent.active_tasks + 1⟩ } }
  match E body subject with
  | .error e => processFail st1 e execution_id
  | .ok entities =>
  match C subject body with
  | .error e => processFail st1 e execution_id
  | .ok intent_result =>
  match log_event st1.log "inbox_agent" "parse_email"
      (.dict [("sender", .str sender), ("subject", .str subject)])
      "success" 0 0 (some execution_id) with
  | none => processFail st1 "TypeError" execution_id
  | some l1 =>
  let st2 := { st1 with log := l1 }
  let st3 := { st2 with agents := { st2.agents with
    routing_agent := ⟨"active", st2.agents.routing_agent.active_tasks + 1⟩ } }
  let routed := _route_email intent_result.intent entities
  match log_decision st3.log "routing_agent" ("route_to_" ++ routed)
      ("Intent: " ++ intent_result.intent ++ ", PO: " ++ pyStrOpt entities.po_number)
      (.dict [("intent", intentJ intent_result), ("entities", entitiesJ entities)])
      (some execution_id) with
  | none => processFail st3 "TypeError" execution_id
  | some l2 =>
  let st4 := { st3 with log := l2 }
  match _execute_workflow P st4 routed intent_result entities sender execution_id with
  | (.error e, st5) => processFail st5 e execution_id
  | (.ok wres, st5) =>
  let st6 := { st5 with agents := { st5.agents with
    inbox_agent := ⟨"idle", max 0 (st5.agents.inbox_agent.active_tasks - 1)⟩,
    routing_agent := ⟨"idle", max 0 (st5.agents.routing_agent.active_tasks - 1)⟩ } }
  (.ok ⟨execution_id, intent_result.intent, routed, entities, wres, wres.cost⟩, st6)

/-! ## Association-list helper lemmas (Python dict semantics) -/

theorem lookup_none_of_not_mem {α : Type} {l : List (String × α)} {k : String}
    (h : k ∉ l.map Prod.fst) : l.lookup k = none := by
  rw [List.lookup_eq_none_iff]
  intro p hp
  simp only [bne_iff_ne, ne_eq]
  intro hk
  exact h (hk ▸ List.mem_map_of_mem Prod.fst hp)

theorem lookup_append_none {α : Type} {l1 l2 : List (String × α)} {k : String}
    (h : l1.lookup k = none) : (l1 ++ l2).lookup k = l2.lookup k := by
  rw [List.lookup_append, h, Option.none_or]

theorem lookup_cons_ite {α : Type} {a k : String} {c : α} {t : List (String × α)} :
    ((a, c) :: t).lookup k = if k == a then some c else t.lookup k := by
  rw [List.lookup_cons]
  rcases h : (k == a) with _ | _ <;> simp [h]

theorem lookup_update_self {α : Type} {l : List (String × α)} {k : String} {v : α}
    (h : (l.lookup k).isSome) :
    (l.map fun kv => if kv.1 = k then (k, v) else kv).lookup k = some v := by
  induction l with
  | nil => simp at h
  | cons kv t ih =>
    obtain ⟨a, b⟩ := kv
    by_cases hk : a = k
    · subst hk
      simp only [List.map_cons, eq_self_iff_true, if_true, lookup_cons_ite,
        beq_self_eq_true]
    · have hbeq : (k == a) = false := beq_eq_false_iff_ne.mpr fun h2 => hk h2.symm
      rw [lookup_cons_ite, hbeq] at h
      simp only [Bool.false_eq_true, if_false] at h
      simp only [List.map_cons, if_neg hk, lookup_cons_ite, hbeq]
      simp only [Bool.false_eq_true, if_false]
      exact ih h

theorem lookup_update_other {α : Type} {l : List (String × α)} {k b : String} {v : α}
    (h : b ≠ k) :
    (l.map fun kv => if kv.1 = k then (k, v) else kv).lookup b = l.lookup b := by
  induction l with
  | nil => rfl
  | cons kv t ih =>
    obtain ⟨a, c⟩ := kv
    by_cases hk : a = k
    · subst hk
      have hbeq : (b == a) = false := beq_eq_false_iff_ne.mpr h
      simp only [List.map_cons, eq_self_iff_true, if_true, lookup_cons_ite, hbeq]
      simp only [Bool.false_eq_true, if_false]
      exact ih
    · simp only [List.map_cons, if_neg hk, lookup_cons_ite]
      rcases hba : (b == a) with _ | _ <;> simp [ih]

/-! ## Cache capacity and FIFO lemmas -/

theorem cacheInsertCap_length {cap : Nat} {c : List (String × String)} {k v : String}
    (h : c.length ≤ cap) : (cacheInsertCap cap c k v).length ≤ cap := by
  have hxlen : ∀ (x : List (String × String)), x.length ≤ cap + 1 →
      (if x.length > cap then x.tail else x).length ≤ cap := by
    intro x hx
    by_cases hgt : x.length > cap
    · simp only [hgt, if_true, List.length_tail]
      omega
    · simp only [hgt, if_false]
      omega
  unfold cacheInsertCap
  apply hxlen
  by_cases hs : (c.lookup k).isSome
  · rw [if_pos hs, List.length_map]
    omega
  · rw [if_neg hs, List.length_append]
    simp only [List.length_cons, List.length_nil]
    omega

theorem cacheInsertCap_fresh {cap : Nat} {c : List (String × String)} {k v : String}
    (h : c.lookup k = none) :
    cacheInsertCap cap c k v =
      if c.length + 1 > cap then (c ++ [(k, v)]).tail else c ++ [(k, v)] := by
  simp only [cacheInsertCap, h, Option.isSome_none, Bool.false_eq_true, if_false,
    List.length_append, List.length_cons, List.length_nil]

theorem cacheInsertCap_lookup_self {cap : Nat} {c : List (String × String)} {k v : String}
    (hc : c.length ≤ cap) (hpos : 0 < cap) :
    (cacheInsertCap cap c k v).lookup k = some v := by
  by_cases hs : (c.lookup k).isSome
  · have heq : cacheInsertCap cap c k v =
        c.map fun kv => if kv.1 = k then (k, v) else kv := by
      simp only [cacheInsertCap, hs, if_true]
      rw [if_neg (by simp only [List.length_map]; omega)]
    rw [heq]
    exact lookup_update_self hs
  · have hnone : c.lookup k = none := Option.not_isSome_iff_eq_none.mp hs
    rw [cacheInsertCap_fresh hnone]
    by_cases hgt : c.length + 1 > cap
    · have hlen : c.length = cap := le_antisymm hc (by omega)
      cases c with
      | nil => exact absurd hlen.symm (by simpa using Nat.pos_iff_ne_zero.mp hpos)
      | cons a t =>
        obtain ⟨a1, a2⟩ := a
        rw [lookup_cons_ite] at hnone
        have ht : t.lookup k = none := by
          rcases hba : (k == a1) with _ | _
          · rwa [hba, if_neg Bool.false_ne_true] at hnone
          · rw [hba, if_pos rfl] at hnone
            exact absurd hnone (by simp)
        simp only [if_pos hgt, List.cons_append, List.tail_cons]
        rw [lookup_append_none ht]
        exact List.lookup_cons_self
    · simp only [if_neg hgt]
      rw [lookup_append_none hnone]
      exact List.lookup_cons_self

theorem foldl_insert_fresh {cap : Nat} :
    ∀ (ps c : List (String × String)),
    (ps.map Prod.fst).Nodup → (∀ kv ∈ ps, c.lookup kv.1 = none) →
    c.length + ps.length ≤ cap →
    ps.foldl (fun acc kv => cacheInsertCap cap acc kv.1 kv.2) c = c ++ ps := by
  intro ps
  induction ps with
  | nil => intro c _ _ _; simp
  | cons kv t ih =>
    intro c hnd hfresh hlen
    simp only [List.foldl_cons]
    have hfk : c.lookup kv.1 = none := hfresh kv (List.mem_cons_self _ _)
    have hstep : cacheInsertCap cap c kv.1 kv.2 = c ++ [kv] := by
      rw [cacheInsertCap_fresh hfk]
      rw [if_neg (by simp only [List.length_cons] at hlen; omega)]
    rw [hstep]
    have hnd' : (t.map Prod.fst).Nodup := by
      simpa using hnd.of_cons
    have hfresh' : ∀ kv2 ∈ t, (c ++ [kv]).lookup kv2.1 = none := by
      intro kv2 hkv2
      rw [List.lookup_append, hfresh kv2 (List.mem_cons_of_mem _ hkv2)]
      have hne : kv2.1 ≠ kv.1 := by
        intro he
        have hmem : kv.1 ∈ t.map Prod.fst := he ▸ List.mem_map_of_mem Prod.fst hkv2
        exact (List.nodup_cons.mp (by simpa using hnd)).1 hmem
      obtain ⟨k1, v1⟩ := kv
      rw [lookup_cons_ite, if_neg (by simpa using hne)]
      rfl
    have hlen' : (c ++ [kv]).length + t.length ≤ cap := by
      simp only [List.length_append, List.length_cons, List.length_nil] at hlen ⊢
      omega
    rw [ih (c ++ [kv]) hnd' hfresh' hlen']
    simp

/-- C8: the response cache never exceeds its capacity (1000 in
`cache_response`; stated for any capacity, of which the code's operation
`cache_response` is the `cap = 1000` instance), and inserting `capacity + 1`
distinct keys starting from an empty cache evicts exactly the single
first-inserted key and no other entry (strict FIFO). -/
theorem C8_fifo_eviction (cap : Nat) (ps : List (String × String))
    (hnd : (ps.map Prod.fst).Nodup) (hlen : ps.length = cap + 1) :
    (∀ (c : List (String × String)) (k v : String),
        c.length ≤ cap → (cacheInsertCap cap c k v).length ≤ cap) ∧
    ps.foldl (fun acc kv => cacheInsertCap cap acc kv.1 kv.2) [] = ps.tail := by
  refine ⟨fun _ _ _ h => cacheInsertCap_length h, ?_⟩
  have hne : ps ≠ [] := by
    intro h
    rw [h] at hlen
    simp at hlen
  have hdec : ps.dropLast ++ [ps.getLast hne] = ps := List.dropLast_append_getLast hne
  have hmapdec : ps.dropLast.map Prod.fst ++ [(ps.getLast hne).1] = ps.map Prod.fst := by
    have hcg := congrArg (List.map Prod.fst) hdec
    simpa using hcg
  have hnddrop : (ps.dropLast.map Prod.fst).Nodup :=
    ((List.dropLast_sublist ps).map Prod.fst).nodup hnd
  have hlendrop : ps.dropLast.length = cap := by
    simp only [List.length_dropLast, hlen]
    omega
  have h1 : ps.dropLast.foldl (fun acc kv => cacheInsertCap cap acc kv.1 kv.2) [] =
      ps.dropLast :=
    (foldl_insert_fresh ps.dropLast [] hnddrop (fun _ _ => rfl)
        (by simp [hlendrop])).trans (by simp)
  conv_lhs => rw [← hdec]
  rw [List.foldl_append, h1, List.foldl_cons, List.foldl_nil]
  have hfreshlast : ps.dropLast.lookup (ps.getLast hne).1 = none := by
    apply lookup_none_of_not_mem
    have := hmapdec ▸ hnd
    rcases List.nodup_append.mp this with ⟨_, _, hdisj⟩
    intro hmem
    exact hdisj hmem (List.mem_singleton_self _)
  rw [cacheInsertCap_fresh hfreshlast]
  rw [if_pos (by omega)]
  rw [hdec]

/-- Witness for C8: capacity 2, three distinct keys — the first-inserted key
`"a"` is evicted and exactly the two later keys remain, in order. -/
theorem C8_fifo_eviction_witness :
    [("a", "1"), ("b", "2"), ("c", "3")].foldl
      (fun acc kv => cacheInsertCap 2 acc kv.1 kv.2) [] = [("b", "2"), ("c", "3")] :=
  (C8_fifo_eviction 2 [("a", "1"), ("b", "2"), ("c", "3")]
    (by decide) (by decide)).2.trans rfl

/-! ## C7: the tier selector -/

/-- The Tier Selector exactly as the claim words it — in particular rule 3
fires only when the `requires_reasoning` value **is the boolean `true`**
(`requires_reasoning == true`).  For comparison with
`analyze_task_complexity`. -/
def claimTierSelector (task_type : String) (context : Ctx) : ModelTier :=
  if task_type ∈ simple_tasks then .SMALL
  else if task_type ∈ medium_tasks then
    (if ((pyLen ((context.lookup "text").getD (.str ""))).getD 0) < 500 then .SMALL
     else .MEDIUM)
  else if task_type ∈ complex_tasks
      || (match context.lookup "requires_reasoning" with
          | some (.bool true) => true
          | _ => false) then .LARGE
  else .MEDIUM

/-- C7 counterexample: the code tests `context.get("requires_reasoning",
False)` for Python **truthiness**, not for equality with `True`.  A context
whose `requires_reasoning` value is the (truthy, non-boolean) string
`"yes"` is routed to LARGE by the code, while the claim's rules
(`requires_reasoning == true`, otherwise the MEDIUM default) give MEDIUM. -/
theorem C7_counterexample :
    analyze_task_complexity "summarize" [("requires_reasoning", .str "yes")] =
      .ok .LARGE ∧
    claimTierSelector "summarize" [("requires_reasoning", .str "yes")] = .MEDIUM :=
  ⟨rfl, rfl⟩

/-- C7 (amended): the Tier Selector is a pure deterministic function applying
its rules in order with first match winning: a task type in the simple set
yields SMALL; a task type in the medium set yields SMALL when the Python
length of the `text` value (absent treated as `""`, length 0) is < 500 and
MEDIUM otherwise, raising `TypeError` when that value has no length; a task
type in the complex set, or a context whose `requires_reasoning` value is
**truthy**, yields LARGE; everything else yields MEDIUM. -/
theorem C7_tier_selector_amended (t : String) (ctx : Ctx) :
    (t ∈ simple_tasks → analyze_task_complexity t ctx = .ok .SMALL) ∧
    (t ∉ simple_tasks → t ∈ medium_tasks →
      analyze_task_complexity t ctx =
        match pyLen ((ctx.lookup "text").getD (.str "")) with
        | none => .error "TypeError: object has no len()"
        | some n => if n < 500 then .ok .SMALL else .ok .MEDIUM) ∧
    (t ∉ simple_tasks → t ∉ medium_tasks →
      (t ∈ complex_tasks ∨
        pyTruthy ((ctx.lookup "requires_reasoning").getD (.bool false)) = true) →
      analyze_task_complexity t ctx = .ok .LARGE) ∧
    (t ∉ simple_tasks → t ∉ medium_tasks → t ∉ complex_tasks →
      pyTruthy ((ctx.lookup "requires_reasoning").getD (.bool false)) = false →
      analyze_task_complexity t ctx = .ok .MEDIUM) := by
  unfold analyze_task_complexity
  refine ⟨fun h1 => by rw [if_pos h1],
          fun h1 h2 => by rw [if_neg h1, if_pos h2],
          ?_, ?_⟩
  · intro h1 h2 h3
    rcases h3 with h | h
    · rw [if_neg h1, if_neg h2, if_pos (by simp [h])]
    · rw [if_neg h1, if_neg h2, if_pos (by simp [h])]
  · intro h1 h2 h3 h4
    rw [if_neg h1, if_neg h2, if_neg (by simp [h3, h4])]

/-- Witness for the amended C7, exercising the simple, complex and default
rules at concrete inputs. -/
theorem C7_tier_selector_witness :
    analyze_task_complexity "extract_quantity" [] = .ok .SMALL ∧
    analyze_task_complexity "decision_making" [] = .ok .LARGE ∧
    analyze_task_complexity "unknown_task" [] = .ok .MEDIUM := by
  refine ⟨(C7_tier_selector_amended "extract_quantity" []).1 (by decide), ?_, ?_⟩
  · exact (C7_tier_selector_amended "decision_making" []).2.2.1 (by decide) (by decide)
      (Or.inl (by decide))
  · exact (C7_tier_selector_amended "unknown_task" []).2.2.2 (by decide) (by decide)
      (by decide) rfl

/-! ## C9: cache-key canonicalization -/

/-- Equation lemma for the object case of `jsonDumps`. -/
theorem jsonDumps_dict (fs : List (String × JValue)) :
    jsonDumps (.dict fs) = (dumpsObj fs).bind fun rendered =>
      some ("\x7b" ++ String.intercalate ", "
        ((rendered.insertionSort keyLE).map fun kv => jsonStr kv.1 ++ ": " ++ kv.2) ++
        "\x7d") := rfl

/-- Equation lemma for the cons case of `dumpsObj`. -/
theorem dumpsObj_cons (kv : String × JValue) (fs : List (String × JValue)) :
    dumpsObj (kv :: fs) = (jsonDumps kv.2).bind fun s =>
      (dumpsObj fs).bind fun rest => some ((kv.1, s) :: rest) := rfl

/-- Relating the two ways a pair of optional rendered lists can agree:
both raise, or both succeed with permuted members. -/
def optPerm (o1 o2 : Option (List (String × String))) : Prop :=
  match o1, o2 with
  | none, none => True
  | some r1, some r2 => r1.Perm r2
  | _, _ => False

theorem dumpsObj_perm {c1 c2 : List (String × JValue)} (h : c1.Perm c2) :
    optPerm (dumpsObj c1) (dumpsObj c2) := by
  induction h with
  | nil => exact List.Perm.refl []
  | cons x h12 ih =>
    rename_i t1 t2
    rw [dumpsObj_cons, dumpsObj_cons]
    cases hx : jsonDumps x.2 with
    | none => simp [optPerm]
    | some s =>
      simp only [Option.some_bind]
      cases h1 : dumpsObj t1 with
      | none =>
        rw [h1] at ih
        cases h2 : dumpsObj t2 with
        | none => simp [optPerm]
        | some r2 => rw [h2] at ih; exact absurd ih (by simp [optPerm])
      | some r1 =>
        rw [h1] at ih
        cases h2 : dumpsObj t2 with
        | none => rw [h2] at ih; exact absurd ih (by simp [optPerm])
        | some r2 =>
          rw [h2] at ih
          exact List.Perm.cons (x.1, s) ih
  | swap x y t =>
    rw [dumpsObj_cons, dumpsObj_cons, dumpsObj_cons, dumpsObj_cons]
    cases hx : jsonDumps x.2 with
    | none =>
      cases hy : jsonDumps y.2 with
      | none => simp [optPerm]
      | some sy => simp [optPerm]
    | some sx =>
      cases hy : jsonDumps y.2 with
      | none => simp [optPerm]
      | some sy =>
        simp only [Option.some_bind]
        cases ht : dumpsObj t with
        | none => simp [optPerm]
        | some r => exact List.Perm.swap (x.1, sx) (y.1, sy) r
  | trans h12 h23 ih12 ih23 =>
    rename_i l1 l2 l3
    cases ho1 : dumpsObj l1 with
    | none =>
      rw [ho1] at ih12
      cases ho2 : dumpsObj l2 with
      | none =>
        rw [ho2] at ih23
        cases ho3 : dumpsObj l3 with
        | none => trivial
        | some r3 => rw [ho3] at ih23; exact absurd ih23 (by simp [optPerm])
      | some r2 => rw [ho2] at ih12; exact absurd ih12 (by simp [optPerm])
    | some r1 =>
      rw [ho1] at ih12
      cases ho2 : dumpsObj l2 with
      | none => rw [ho2] at ih12; exact absurd ih12 (by simp [optPerm])
      | some r2 =>
        rw [ho2] at ih12 ih23
        cases ho3 : dumpsObj l3 with
        | none => rw [ho3] at ih23; exact absurd ih23 (by simp [optPerm])
        | some r3 =>
          rw [ho3] at ih23
          exact List.Perm.trans ih12 ih23

theorem dumpsObj_keys : ∀ {c : List (String × JValue)} {r : List (String × String)},
    dumpsObj c = some r → r.map Prod.fst = c.map Prod.fst := by
  intro c
  induction c with
  | nil =>
    intro r h
    simp only [dumpsObj] at h
    cases h
    rfl
  | cons kv t ih =>
    intro r h
    rw [dumpsObj_cons] at h
    cases hx : jsonDumps kv.2 with
    | none => rw [hx] at h; cases h
    | some s =>
      rw [hx, Option.some_bind] at h
      cases ht : dumpsObj t with
      | none => rw [ht] at h; cases h
      | some rest =>
        rw [ht, Option.some_bind] at h
        cases h
        simp [ih ht]

/-- Two lists sorted by key that are permutations of each other and have
duplicate-free keys are equal. -/
theorem sorted_perm_keys_eq : ∀ {l1 l2 : List (String × String)}, l1.Perm l2 →
    l1.Sorted keyLE → l2.Sorted keyLE → (l1.map Prod.fst).Nodup → l1 = l2 := by
  intro l1
  induction l1 with
  | nil =>
    intro l2 hp _ _ _
    exact hp.nil_eq
  | cons a t ih =>
    intro l2 hp hs1 hs2 hnd
    cases l2 with
    | nil => exact absurd hp.eq_nil (by simp)
    | cons b u =>
      have hab : a = b := by
        have ha2 : a ∈ b :: u := hp.subset (List.mem_cons_self a t)
        rcases List.mem_cons.mp ha2 with h | h
        · exact h
        · have hba : keyLE b a := List.rel_of_sorted_cons hs2 a h
          have hb1 : b ∈ a :: t := hp.symm.subset (List.mem_cons_self b u)
          rcases List.mem_cons.mp hb1 with h2 | h2
          · exact h2.symm
          · have hab2 : keyLE a b := List.rel_of_sorted_cons hs1 b h2
            have he : a.1 = b.1 := le_antisymm hab2 hba
            have hmem : a.1 ∈ t.map Prod.fst := he ▸ List.mem_map_of_mem Prod.fst h2
            exact absurd hmem (List.nodup_cons.mp (by simpa using hnd)).1
      subst hab
      have ht : t = u := ih hp.cons_inv hs1.of_cons hs2.of_cons
        (List.nodup_cons.mp (by simpa using hnd)).2
      rw [ht]

/-- C9: the cache key derivation is deterministic and context-order
independent — two context dicts holding the same key/value pairs in
different insertion orders produce the same cache key (`sort_keys=True`
canonicalization in `_generate_cache_key`). -/
theorem C9_key_canonicalization (t p : String) (c1 c2 : Ctx)
    (hperm : c1.Perm c2) (hnd : (c1.map Prod.fst).Nodup) :
    _generate_cache_key t p c1 = _generate_cache_key t p c2 := by
  unfold _generate_cache_key
  suffices h : jsonDumps (.dict c1) = jsonDumps (.dict c2) by rw [h]
  have hrel := dumpsObj_perm hperm
  cases h1 : dumpsObj c1 with
  | none =>
    rw [h1] at hrel
    cases h2 : dumpsObj c2 with
    | none => rw [jsonDumps_dict, jsonDumps_dict, h1, h2]
    | some r2 => rw [h2] at hrel; exact absurd hrel (by simp [optPerm])
  | some r1 =>
    rw [h1] at hrel
    cases h2 : dumpsObj c2 with
    | none => rw [h2] at hrel; exact absurd hrel (by simp [optPerm])
    | some r2 =>
      rw [h2] at hrel
      have hkeys : r1.map Prod.fst = c1.map Prod.fst := dumpsObj_keys h1
      have hnd1 : (r1.map Prod.fst).Nodup := hkeys ▸ hnd
      have hsortnd : ((r1.insertionSort keyLE).map Prod.fst).Nodup :=
        (((List.perm_insertionSort keyLE r1).map Prod.fst).nodup_iff).mpr hnd1
      have hseq : r1.insertionSort keyLE = r2.insertionSort keyLE :=
        sorted_perm_keys_eq
          (((List.perm_insertionSort keyLE r1).trans hrel).trans
            (List.perm_insertionSort keyLE r2).symm)
          (List.sorted_insertionSort keyLE r1)
          (List.sorted_insertionSort keyLE r2)
          hsortnd
      rw [jsonDumps_dict, jsonDumps_dict, h1, h2, Option.some_bind, Option.some_bind, hseq]

/-- Witness for C9: the two-key context in both insertion orders yields the
same key. -/
theorem C9_key_canonicalization_witness :
    _generate_cache_key "t" "p" [("a", .str "1"), ("b", .str "2")] =
      _generate_cache_key "t" "p" [("b", .str "2"), ("a", .str "1")] :=
  C9_key_canonicalization "t" "p" _ _
    (List.Perm.swap ("b", JValue.str "2") ("a", JValue.str "1") [])
    (by decide)

/-! ## Ledger metric lemmas, C2 and C3 -/

theorem jsonDumps_str (s : String) : jsonDumps (.str s) = some (jsonStr s) := rfl

theorem getMetric_setMetric_self (st : LogState) (a : String) (m : AgentMetric) :
    getMetric (setMetric st a m) a = m := by
  unfold getMetric setMetric
  by_cases hs : (st.metrics.lookup a).isSome
  · rw [if_pos hs]
    simp only
    rw [lookup_update_self hs]
    rfl
  · rw [if_neg hs]
    simp only
    rw [lookup_append_none (Option.not_isSome_iff_eq_none.mp hs)]
    rw [List.lookup_cons_self]
    rfl

theorem getMetric_setMetric_other (st : LogState) {a b : String} (m : AgentMetric)
    (h : b ≠ a) : getMetric (setMetric st a m) b = getMetric st b := by
  unfold getMetric setMetric
  by_cases hs : (st.metrics.lookup a).isSome
  · rw [if_pos hs]
    simp only
    rw [lookup_update_other h]
  · rw [if_neg hs]
    simp only
    rw [List.lookup_append]
    cases hb : st.metrics.lookup b with
    | none =>
      simp only [Option.none_or]
      rw [lookup_cons_ite, if_neg (by simpa using h)]
      rfl
    | some mb => rfl

/-- How one successful `log_event` changes each agent's accumulator. -/
theorem log_event_metrics {st st' : LogState} {an act : String} {c : JValue}
    {oc : String} {cost d : ℚ} {eid : Option String}
    (h : log_event st an act c oc cost d eid = some st') :
    ∀ b, getMetric st' b =
      if b = an then eventBump (getMetric st an) oc cost d else getMetric st b := by
  unfold log_event at h
  cases hc : serializeCtx c with
  | none => rw [hc] at h; cases h
  | some cs =>
    rw [hc] at h
    simp only [Option.some.injEq] at h
    subst h
    intro b
    have htrunc : ∀ (s : LogState) (cond : Prop) [Decidable cond] (ev2 : List Event),
        getMetric (if cond then { s with events := ev2 } else s) b = getMetric s b := by
      intro s cond _ ev2
      split <;> rfl
    rw [htrunc]
    by_cases hb : b = an
    · subst hb
      rw [getMetric_setMetric_self]
      rw [if_pos rfl]
      rfl
    · rw [getMetric_setMetric_other _ _ hb, if_neg hb]
      rfl

/-- A `log_event` whose context serializes cannot raise. -/
theorem log_event_isSome {an act : String} {c : JValue} {oc : String}
    {cost d : ℚ} {eid : Option String} (st : LogState)
    (h : (serializeCtx c).isSome) :
    (log_event st an act c oc cost d eid).isSome := by
  unfold log_event
  obtain ⟨cs, hcs⟩ := Option.isSome_iff_exists.mp h
  rw [hcs]
  rfl

/-- The metric invariant: every agent's `total_actions` splits as
`successful_actions + failed_actions`. -/
def MetricsConsistent (st : LogState) : Prop :=
  ∀ a, (getMetric st a).total_actions =
    (getMetric st a).successful_actions + (getMetric st a).failed_actions

theorem log_event_getD_consistent {st : LogState} {an act : String} {c : JValue}
    {oc : String} {cost d : ℚ} {eid : Option String} (h : MetricsConsistent st) :
    MetricsConsistent ((log_event st an act c oc cost d eid).getD st) := by
  cases hle : log_event st an act c oc cost d eid with
  | none => simpa using h
  | some st' =>
    simp only [Option.getD_some]
    intro b
    rw [log_event_metrics hle b]
    by_cases hb : b = an
    · rw [if_pos hb]
      unfold eventBump
      by_cases hoc : oc = "success" <;> simp only [hoc, if_true, if_false] <;>
        have := h an <;> omega
    · rw [if_neg hb]
      exact h b

theorem runLogOp_consistent {st : LogState} (h : MetricsConsistent st) (op : LogOp) :
    MetricsConsistent (runLogOp st op) := by
  cases op with
  | event a act c oc cost dur eid => exact log_event_getD_consistent h
  | decision a dec r inp eid => exact log_event_getD_consistent h
  | override a d r =>
    unfold runLogOp log_override
    apply log_event_getD_consistent
    intro b
    by_cases hb : b = a
    · subst hb
      rw [getMetric_setMetric_self]
      exact h b
    · rw [getMetric_setMetric_other _ _ hb]
      exact h b

theorem runLog_consistent (ops : List LogOp) : MetricsConsistent (runLog ops) := by
  suffices h : ∀ st : LogState, MetricsConsistent st →
      MetricsConsistent (ops.foldl runLogOp st) from
    h initLog (fun a => rfl)
  induction ops with
  | nil => intro st h; exact h
  | cons op rest ih =>
    intro st h
    exact ih _ (runLogOp_consistent h op)

/-- The effect of `log_override` on the overridden agent's accumulator:
first the override counter, then the `"overridden"` event's bump. -/
theorem log_override_metrics (st : LogState) (a d r : String) :
    getMetric (log_override st a d r) a =
      eventBump { getMetric st a with overrides := (getMetric st a).overrides + 1 }
        "overridden" 0 0 := by
  have hser : (serializeCtx (.dict [("original_decision", JValue.str d),
      ("override_reason", JValue.str r)])).isSome := by
    show (jsonDumps (.dict [("original_decision", JValue.str d),
      ("override_reason", JValue.str r)])).isSome
    rw [jsonDumps_dict, dumpsObj_cons]
    simp [dumpsObj, jsonDumps_str]
  unfold log_override
  simp only
  obtain ⟨st2, hst2⟩ := Option.isSome_iff_exists.mp
    (log_event_isSome (setMetric st a
      { getMetric st a with overrides := (getMetric st a).overrides + 1 }) hser)
  rw [hst2, Option.getD_some]
  have hm := log_event_metrics hst2 a
  rw [if_pos rfl, getMetric_setMetric_self] at hm
  exact hm

/-- C2 counterexample: a single `log_override` — an event with outcome
`"overridden"` and no success/failure event at all — leaves the agent with
`failed_actions = 1`: the `else` branch of `log_event` folds the overridden
event into the failure counter, while the claim says overridden events are
counted only by the override counter. -/
theorem C2_counterexample :
    (getMetric (runLog [.override "a" "orig" "why"]) "a").failed_actions = 1 ∧
    (getMetric (runLog [.override "a" "orig" "why"]) "a").successful_actions = 0 ∧
    (getMetric (runLog [.override "a" "orig" "why"]) "a").total_actions = 1 ∧
    (getMetric (runLog [.override "a" "orig" "why"]) "a").overrides = 1 ∧
    ((runLog [.override "a" "orig" "why"]).events.filter
      (fun e => e.outcome = "failure")).length = 0 ∧
    ((runLog [.override "a" "orig" "why"]).events.filter
      (fun e => e.outcome = "success")).length = 0 := by
  decide

/-- C2 (amended): for every agent and every sequence of ledger operations,
`total_actions = successful_actions + failed_actions` — but over **all**
events of that agent: every logged event increments `total_actions` and
exactly one of the two sub-counters, and an event with outcome
`"overridden"` is folded into `failed_actions` (in addition to bumping the
explicit override counter). -/
theorem C2_metrics_invariant (ops : List LogOp) (agent : String) :
    ((getMetric (runLog ops) agent).total_actions =
      (getMetric (runLog ops) agent).successful_actions +
      (getMetric (runLog ops) agent).failed_actions) ∧
    ∀ a d r,
      (getMetric (runLog (ops ++ [.override a d r])) a).failed_actions =
        (getMetric (runLog ops) a).failed_actions + 1 ∧
      (getMetric (runLog (ops ++ [.override a d r])) a).overrides =
        (getMetric (runLog ops) a).overrides + 1 := by
  constructor
  · exact runLog_consistent ops agent
  · intro a d r
    have hrun : runLog (ops ++ [.override a d r]) =
        runLogOp (runLog ops) (.override a d r) := by
      unfold runLog
      rw [List.foldl_append, List.foldl_cons, List.foldl_nil]
    have hop : runLogOp (runLog ops) (.override a d r) = log_override (runLog ops) a d r :=
      rfl
    rw [hrun, hop, log_override_metrics]
    unfold eventBump
    refine ⟨by simp, rfl⟩

/-- C3 counterexample: a dict context holding a non-JSON-serializable value
makes `log_event` raise (`json.dumps` raises `TypeError`; the
`isinstance(context, dict)` guard sends every dict — malformed values
included — to `json.dumps`, not to `str`). -/
theorem C3_counterexample :
    log_event initLog "agent1" "act" (.dict [("x", .obj 0)]) "success" 0 0 none =
      none := rfl

/-- C3 (amended): `log_event` raises exactly when the context is a dict
containing a non-serializable value; a non-dict context is always degraded
to its string representation, and a serializable dict is logged as JSON —
in those cases `log_event` cannot raise. -/
theorem C3_log_event_never_raises (st : LogState) (an act : String) (c : JValue)
    (oc : String) (cost d : ℚ) (eid : Option String) :
    log_event st an act c oc cost d eid = none ↔
      ∃ fs, c = .dict fs ∧ jsonDumps (.dict fs) = none := by
  unfold log_event
  cases c with
  | dict fs =>
    cases hj : jsonDumps (.dict fs) with
    | none =>
      simp only [serializeCtx, hj]
      exact iff_of_true trivial ⟨fs, rfl, hj⟩
    | some cs =>
      simp only [serializeCtx, hj]
      constructor
      · intro h; cases h
      · rintro ⟨fs2, hfs2, hj2⟩
        cases hfs2
        rw [hj] at hj2
        cases hj2
  | null => simp [serializeCtx]
  | bool b => simp [serializeCtx]
  | num q => simp [serializeCtx]
  | str s => simp [serializeCtx]
  | list xs => simp [serializeCtx]
  | obj t => simp [serializeCtx]

/-! ## `call_llm` path lemmas -/

@[simp] theorem bumpTier_cache (st : OptState) (tier : ModelTier) :
    (bumpTier st tier).cache = st.cache := by cases tier <;> rfl

@[simp] theorem bumpTier_total_cost (st : OptState) (tier : ModelTier) :
    (bumpTier st tier).total_cost = st.total_cost := by cases tier <;> rfl

@[simp] theorem bumpTier_cache_hits (st : OptState) (tier : ModelTier) :
    (bumpTier st tier).cache_hits = st.cache_hits := by cases tier <;> rfl

@[simp] theorem bumpTier_cache_misses (st : OptState) (tier : ModelTier) :
    (bumpTier st tier).cache_misses = st.cache_misses := by cases tier <;> rfl

/-- A successful authoritative-tier call: record the call under its tier,
add the cost to `total_cost`, cache the response, return. -/
theorem authoritativeCall_ok {P : Provider} {st1 : OptState} {t p : String}
    {ctx : Ctx} {tier : ModelTier} {calls : List (ModelTier × String)}
    {k r2 : String} {c2 : ℚ}
    (hk : _generate_cache_key t p ctx = some k)
    (hP : P tier p = .ok (r2, c2)) :
    authoritativeCall P st1 t p ctx tier calls =
      .ok ⟨r2, c2,
        { bumpTier st1 tier with
          total_cost := st1.total_cost + c2,
          cache := cacheInsertCap 1000 st1.cache k r2 },
        calls ++ [(tier, p)]⟩ := by
  unfold authoritativeCall cache_response
  rw [hP, hk]
  simp only [Option.map_some]
  cases tier <;> rfl

/-- A failing authoritative-tier call is fatal. -/
theorem authoritativeCall_error {P : Provider} {st1 : OptState} {t p : String}
    {ctx : Ctx} {tier : ModelTier} {calls : List (ModelTier × String)} {e : String}
    (hP : P tier p = .error e) :
    authoritativeCall P st1 t p ctx tier calls = .error e := by
  unfold authoritativeCall
  rw [hP]

/-- Entering `call_llm` on a strict cache miss runs the uncached tail with
`cache_misses` bumped. -/
theorem call_llm_miss {P : Provider} {st : OptState} {t p : String} {ctx : Ctx}
    {ft : Option ModelTier} {k : String}
    (hk : _generate_cache_key t p ctx = some k)
    (hmiss : st.cache.lookup k = none) :
    call_llm P st t p ctx ft =
      call_llm_uncached P { st with cache_misses := st.cache_misses + 1 } t p ctx ft := by
  unfold call_llm get_cached_response
  simp [hk, hmiss]

/-- The accepted speculative cascade: one SMALL-tier provider invocation,
recorded under SMALL, no `total_cost` accounting, response cached. -/
theorem call_llm_uncached_cascade_accept {P : Provider} {st1 : OptState}
    {t p : String} {ctx : Ctx} {k resp : String} {c : ℚ} {tier : ModelTier}
    (hk : _generate_cache_key t p ctx = some k)
    (hnc : t ∉ never_cascade)
    (htier : analyze_task_complexity t ctx = .ok tier)
    (hsmall : P .SMALL p = .ok (resp, c))
    (hlen : resp.length > 10) :
    call_llm_uncached P st1 t p ctx none =
      .ok ⟨resp, c,
        { st1 with calls_small := st1.calls_small + 1,
                   cache := cacheInsertCap 1000 st1.cache k resp },
        [(.SMALL, p)]⟩ := by
  unfold call_llm_uncached cache_response
  rw [htier, hsmall, hk]
  have hcont : never_cascade.contains t = false := by
    simpa using hnc
  rw [hcont]
  simp only [Option.isNone_none, Bool.not_false, Bool.and_true, if_true, hlen, if_pos]
  rfl

/-- The rejected speculative cascade (provider failure or short response):
fall through to the authoritative tier with the SMALL attempt discarded
(but its provider invocation on record). -/
theorem call_llm_uncached_cascade_reject {P : Provider} {st1 : OptState}
    {t p : String} {ctx : Ctx} {tier : ModelTier}
    (hnc : t ∉ never_cascade)
    (htier : analyze_task_complexity t ctx = .ok tier)
    (hrej : (∃ e, P .SMALL p = .error e) ∨
      (∃ r c, P .SMALL p = .ok (r, c) ∧ r.length ≤ 10)) :
    call_llm_uncached P st1 t p ctx none =
      authoritativeCall P st1 t p ctx tier [(.SMALL, p)] := by
  unfold call_llm_uncached
  rw [htier]
  have hcont : never_cascade.contains t = false := by
    simpa using hnc
  rw [hcont]
  simp only [Option.isNone_none, Bool.not_false, Bool.and_true, if_true]
  rcases hrej with ⟨e, he⟩ | ⟨r, c, hok, hle⟩
  · rw [he]
  · simp only [hok]
    rw [if_neg (by omega)]

/-- C5: for an eligible task type (not in the never-cascade set), no forced
tier and a strict cache miss, a speculative SMALL-tier call that succeeds
with a response longer than 10 characters is accepted: exactly one provider
invocation (at SMALL), the call recorded under SMALL in calls-by-tier, the
cache populated, and `(response, cost)` returned — the authoritative
(selected) tier is never invoked. -/
theorem C5_cascade_acceptance (P : Provider) (st : OptState) (t p : String)
    (ctx : Ctx) (k resp : String) (c : ℚ) (tier : ModelTier)
    (hk : _generate_cache_key t p ctx = some k)
    (hmiss : st.cache.lookup k = none)
    (hnc : t ∉ never_cascade)
    (htier : analyze_task_complexity t ctx = .ok tier)
    (hsmall : P .SMALL p = .ok (resp, c))
    (hlen : resp.length > 10)
    (hcap : st.cache.length ≤ 1000) :
    call_llm P st t p ctx none =
      .ok ⟨resp, c,
        { st with cache_misses := st.cache_misses + 1,
                  calls_small := st.calls_small + 1,
                  cache := cacheInsertCap 1000 st.cache k resp },
        [(.SMALL, p)]⟩ ∧
    (cacheInsertCap 1000 st.cache k resp).lookup k = some resp := by
  refine ⟨?_, cacheInsertCap_lookup_self hcap (by norm_num)⟩
  rw [call_llm_miss hk hmiss, call_llm_uncached_cascade_accept hk hnc htier hsmall hlen]

/-- A provider stub whose SMALL tier gives an adequate (>10 character)
response; used to witness C5. -/
def stubAdequate : Provider := fun _ _ => .ok ("thirteen chars", 1)

/-- Witness for C5 at a concrete eligible call. -/
theorem C5_cascade_acceptance_witness :
    call_llm stubAdequate initOpt "coordination" "p" [] none =
      .ok ⟨"thirteen chars", 1,
        { initOpt with cache_misses := initOpt.cache_misses + 1,
                       calls_small := initOpt.calls_small + 1,
                       cache := cacheInsertCap 1000 initOpt.cache
                         "coordination:p:\x7b\x7d" "thirteen chars" },
        [(.SMALL, "p")]⟩ ∧
    (cacheInsertCap 1000 initOpt.cache "coordination:p:\x7b\x7d"
      "thirteen chars").lookup "coordination:p:\x7b\x7d" = some "thirteen chars" :=
  C5_cascade_acceptance stubAdequate initOpt "coordination" "p" []
    "coordination:p:\x7b\x7d" "thirteen chars" 1 .LARGE
    (by decide) rfl (by decide) rfl rfl (by decide) (by decide)

/-- C6: for an eligible cascading call whose speculative SMALL-tier attempt
fails or returns a response of at most 10 characters, the attempt is
swallowed and the provider is invoked at the authoritative selected tier,
whose tier and cost are recorded (`calls_by_tier[tier]`, `total_cost`);
a provider failure at the authoritative tier propagates as the error of the
whole call. -/
theorem C6_cascade_rejection (P : Provider) (st : OptState) (t p : String)
    (ctx : Ctx) (k : String) (tier : ModelTier)
    (hk : _generate_cache_key t p ctx = some k)
    (hmiss : st.cache.lookup k = none)
    (hnc : t ∉ never_cascade)
    (htier : analyze_task_complexity t ctx = .ok tier)
    (hrej : (∃ e, P .SMALL p = .error e) ∨
      (∃ r c, P .SMALL p = .ok (r, c) ∧ r.length ≤ 10)) :
    (∀ r2 c2, P tier p = .ok (r2, c2) →
      call_llm P st t p ctx none =
        .ok ⟨r2, c2,
          { bumpTier { st with cache_misses := st.cache_misses + 1 } tier with
            total_cost := st.total_cost + c2,
            cache := cacheInsertCap 1000 st.cache k r2 },
          [(.SMALL, p), (tier, p)]⟩) ∧
    (∀ e, P tier p = .error e → call_llm P st t p ctx none = .error e) := by
  constructor
  · intro r2 c2 hok
    rw [call_llm_miss hk hmiss, call_llm_uncached_cascade_reject hnc htier hrej,
      authoritativeCall_ok hk hok]
    rfl
  · intro e he
    rw [call_llm_miss hk hmiss, call_llm_uncached_cascade_reject hnc htier hrej,
      authoritativeCall_error he]

/-- A provider stub whose SMALL tier is inadequate (≤10 characters) and whose
other tiers answer; used to witness C6's fall-through arm. -/
def stubShortSmall : Provider := fun tier _ =>
  match tier with
  | .SMALL => .ok ("short", 1)
  | _ => .ok ("authoritative answer", 2)

/-- A provider stub whose SMALL tier raises and whose other tiers also
fail; used to witness C6's fatal arm. -/
def stubFailing : Provider := fun tier _ =>
  match tier with
  | .SMALL => .error "small down"
  | _ => .error "provider down"

/-- Witness for C6: the short-response stub falls through to the LARGE
authoritative tier and records its cost; the failing stub propagates the
authoritative-tier error. -/
theorem C6_cascade_rejection_witness :
    call_llm stubShortSmall initOpt "coordination" "p" [] none =
      .ok ⟨"authoritative answer", 2,
        { bumpTier { initOpt with cache_misses := initOpt.cache_misses + 1 } .LARGE with
          total_cost := initOpt.total_cost + 2,
          cache := cacheInsertCap 1000 initOpt.cache "coordination:p:\x7b\x7d"
            "authoritative answer" },
        [(.SMALL, "p"), (.LARGE, "p")]⟩ ∧
    call_llm stubFailing initOpt "coordination" "p" [] none = .error "provider down" := by
  constructor
  · exact (C6_cascade_rejection stubShortSmall initOpt "coordination" "p" []
      "coordination:p:\x7b\x7d" .LARGE (by decide) rfl (by decide) rfl
      (Or.inr ⟨"short", 1, rfl, by decide⟩)).1 "authoritative answer" 2 rfl
  · exact (C6_cascade_rejection stubFailing initOpt "coordination" "p" []
      "coordination:p:\x7b\x7d" .LARGE (by decide) rfl (by decide) rfl
      (Or.inl ⟨"small down", rfl⟩)).2 "provider down" rfl

/-- C10: a `call_llm` whose speculative SMALL-tier cascade attempt is
accepted (with the code's demo provider, any eligible cache-missing call)
returns the strictly positive provider cost to the caller while leaving the
`total_cost` statistic unchanged — only authoritative-tier calls add to
`total_cost`, so `total_cost` (reported by `get_stats`) can undercount the
costs returned to callers. -/
theorem C10_cascade_cost_unaccounted (st : OptState) (t p : String) (ctx : Ctx)
    (k : String) (tier : ModelTier)
    (hk : _generate_cache_key t p ctx = some k)
    (hmiss : st.cache.lookup k = none)
    (hnc : t ∉ never_cascade)
    (htier : analyze_task_complexity t ctx = .ok tier) :
    call_llm callOpenAI st t p ctx none =
      .ok ⟨mockResponse .SMALL, mockCost .SMALL p,
        { st with cache_misses := st.cache_misses + 1,
                  calls_small := st.calls_small + 1,
                  cache := cacheInsertCap 1000 st.cache k (mockResponse .SMALL) },
        [(.SMALL, p)]⟩ ∧
    0 < mockCost .SMALL p ∧
    ({ st with cache_misses := st.cache_misses + 1,
               calls_small := st.calls_small + 1,
               cache := cacheInsertCap 1000 st.cache k (mockResponse .SMALL) } :
      OptState).total_cost = st.total_cost := by
  refine ⟨?_, ?_, rfl⟩
  · rw [call_llm_miss hk hmiss,
      call_llm_uncached_cascade_accept hk hnc htier rfl (by decide)]
  · unfold mockCost
    rw [show (mockResponse .SMALL).length = 32 from rfl]
    simp only [inputCost, outputCost]
    positivity

/-- Witness for C10 at a concrete eligible call with the demo provider. -/
theorem C10_cascade_cost_unaccounted_witness :
    call_llm callOpenAI initOpt "coordination" "q" [] none =
      .ok ⟨mockResponse .SMALL, mockCost .SMALL "q",
        { initOpt with cache_misses := initOpt.cache_misses + 1,
                       calls_small := initOpt.calls_small + 1,
                       cache := cacheInsertCap 1000 initOpt.cache
                         "coordination:q:\x7b\x7d" (mockResponse .SMALL) },
        [(.SMALL, "q")]⟩ ∧
    0 < mockCost .SMALL "q" ∧
    ({ initOpt with cache_misses := initOpt.cache_misses + 1,
                    calls_small := initOpt.calls_small + 1,
                    cache := cacheInsertCap 1000 initOpt.cache
                      "coordination:q:\x7b\x7d" (mockResponse .SMALL) } :
      OptState).total_cost = initOpt.total_cost :=
  C10_cascade_cost_unaccounted initOpt "coordination" "q" []
    "coordination:q:\x7b\x7d" .LARGE (by decide) rfl (by decide) rfl

/-! ## C4: cache idempotence -/

/-- After a successful authoritative call, the cache holds the returned
response under the request's key, and stays within capacity. -/
theorem authoritativeCall_ok_cached {P : Provider} {st1 : OptState} {t p : String}
    {ctx : Ctx} {tier : ModelTier} {calls : List (ModelTier × String)}
    {k : String} {res : CallResult}
    (hP : ∀ tier2 prompt r c, P tier2 prompt = .ok (r, c) → r ≠ "")
    (hk : _generate_cache_key t p ctx = some k)
    (hcap : st1.cache.length ≤ 1000)
    (h : authoritativeCall P st1 t p ctx tier calls = .ok res) :
    res.state.cache.lookup k = some res.response ∧
    res.response ≠ "" ∧ res.state.cache.length ≤ 1000 := by
  cases hPt : P tier p with
  | error e => rw [authoritativeCall_error hPt] at h; cases h
  | ok rc =>
    obtain ⟨r2, c2⟩ := rc
    rw [authoritativeCall_ok hk hPt] at h
    cases h
    refine ⟨?_, hP tier p r2 c2 hPt, ?_⟩
    · exact cacheInsertCap_lookup_self hcap (by norm_num)
    · exact cacheInsertCap_length hcap

/-- After any successful run of the uncached tail, the cache holds the
returned response under the request's key, and stays within capacity. -/
theorem call_llm_uncached_ok_cached {P : Provider} {st1 : OptState} {t p : String}
    {ctx : Ctx} {ft : Option ModelTier} {k : String} {res : CallResult}
    (hP : ∀ tier2 prompt r c, P tier2 prompt = .ok (r, c) → r ≠ "")
    (hk : _generate_cache_key t p ctx = some k)
    (hcap : st1.cache.length ≤ 1000)
    (h : call_llm_uncached P st1 t p ctx ft = .ok res) :
    res.state.cache.lookup k = some res.response ∧
    res.response ≠ "" ∧ res.state.cache.length ≤ 1000 := by
  unfold call_llm_uncached at h
  cases hm : (match ft with
             | some t0 => Except.ok t0
             | none => analyze_task_complexity t ctx) with
  | error e => rw [hm] at h; cases h
  | ok tier =>
    rw [hm] at h
    simp only at h
    by_cases hcc : (ft.isNone && !(never_cascade.contains t)) = true
    · rw [if_pos hcc] at h
      cases hps : P .SMALL p with
      | ok rc =>
        obtain ⟨r, c⟩ := rc
        rw [hps] at h
        simp only at h
        by_cases hlen : r.length > 10
        · rw [if_pos hlen] at h
          unfold cache_response at h
          rw [hk] at h
          simp only [Option.map_some'] at h
          cases h
          refine ⟨?_, hP .SMALL p r c hps, ?_⟩
          · simp only [bumpTier_cache]
            exact cacheInsertCap_lookup_self hcap (by norm_num)
          · simp only [bumpTier_cache]
            exact cacheInsertCap_length hcap
        · rw [if_neg hlen] at h
          exact authoritativeCall_ok_cached hP hk hcap h
      | error e =>
        rw [hps] at h
        simp only at h
        exact authoritativeCall_ok_cached hP hk hcap h
    · rw [if_neg hcc] at h
      exact authoritativeCall_ok_cached hP hk hcap h

/-- After any successful `call_llm`, the cache holds the returned (non-empty)
response under the request's key, and stays within capacity. -/
theorem call_llm_ok_cached {P : Provider} {st : OptState} {t p : String}
    {ctx : Ctx} {ft : Option ModelTier} {res : CallResult}
    (hP : ∀ tier2 prompt r c, P tier2 prompt = .ok (r, c) → r ≠ "")
    (hcap : st.cache.length ≤ 1000)
    (h : call_llm P st t p ctx ft = .ok res) :
    ∃ k, _generate_cache_key t p ctx = some k ∧
      res.state.cache.lookup k = some res.response ∧
      res.response ≠ "" ∧ res.state.cache.length ≤ 1000 := by
  unfold call_llm get_cached_response at h
  cases hk : _generate_cache_key t p ctx with
  | none => rw [hk] at h; cases h
  | some k =>
    refine ⟨k, rfl, ?_⟩
    simp only [hk] at h
    cases hl : st.cache.lookup k with
    | some v =>
      simp only [hl, Option.getD_some] at h
      by_cases hv : v = ""
      · rw [if_neg (by simp [hv])] at h
        exact call_llm_uncached_ok_cached hP hk (by simpa using hcap) h
      · rw [if_pos hv] at h
        cases h
        exact ⟨by simpa using hl, hv, by simpa using hcap⟩
    | none =>
      simp only [hl, Option.getD_none] at h
      rw [if_neg (by simp)] at h
      exact call_llm_uncached_ok_cached hP hk (by simpa using hcap) h

/-- The demo provider never returns an empty response string. -/
theorem callOpenAI_nonempty :
    ∀ tier prompt r c, callOpenAI tier prompt = .ok (r, c) → r ≠ "" := by
  intro tier prompt r c hOk
  have heq : Except.ok (ε := String) (mockResponse tier, mockCost tier prompt) =
      Except.ok (ε := String) (r, c) := hOk
  injection heq with h1
  have hr : r = mockResponse tier := (congrArg Prod.fst h1).symm
  rw [hr]
  cases tier <;> decide

/-- C4: cache idempotence — a second `call_llm` with identical arguments,
run from the state a successful first call produced, is served from the
cache: identical response text, cost `0.0`, no provider invocation and no
tier accounting (the state changes only by the `cache_hits` bump). -/
theorem C4_cache_idempotence (st : OptState) (t p : String) (ctx : Ctx)
    (ft : Option ModelTier) (res : CallResult)
    (hcap : st.cache.length ≤ 1000)
    (h : call_llm callOpenAI st t p ctx ft = .ok res) :
    call_llm callOpenAI res.state t p ctx ft =
      .ok ⟨res.response, 0,
        { res.state with cache_hits := res.state.cache_hits + 1 }, []⟩ := by
  obtain ⟨k, hk, hlook, hne, _⟩ := call_llm_ok_cached callOpenAI_nonempty hcap h
  unfold call_llm get_cached_response
  simp only [hk, hlook, Option.getD_some]
  rw [if_pos hne]

/-- The optimizer state left by a first `call_llm` on task `"t"`, prompt
`"p"`, empty context, with the demo provider (cascade accepted at SMALL). -/
def c4FirstState : OptState :=
  { initOpt with cache_misses := 1, calls_small := 1,
                 cache := [("t:p:\x7b\x7d", mockResponse .SMALL)] }

/-- Witness for C4: the second identical call is served from the cache with
cost 0, the same text, no provider invocation, and only `cache_hits`
bumped. -/
theorem C4_cache_idempotence_witness :
    call_llm callOpenAI c4FirstState "t" "p" [] none =
      .ok ⟨mockResponse .SMALL, 0,
        { c4FirstState with cache_hits := c4FirstState.cache_hits + 1 }, []⟩ :=
  C4_cache_idempotence initOpt "t" "p" [] none
    ⟨mockResponse .SMALL, mockCost .SMALL "p", c4FirstState, [(.SMALL, "p")]⟩
    (by decide) rfl

/-! ## C1: agent-registry restoration in the orchestrator -/

/-- On the successful exit path, the `po_tracker` workflow restores its agent
slot (idle, counter decremented with floor) and touches no other slot. -/
theorem po_workflow_ok {P : Provider} {st : OrchState} {i : IntentResult}
    {e : Entities} {s x : String} {w : WorkflowResult} {st' : OrchState}
    (h : _po_tracker_workflow P st i e s x = (.ok w, st')) :
    st'.agents.po_tracker = ⟨"idle", max 0 st.agents.po_tracker.active_tasks⟩ ∧
    st'.agents.inbox_agent = st.agents.inbox_agent ∧
    st'.agents.routing_agent = st.agents.routing_agent ∧
    st'.agents.change_manager = st.agents.change_manager := by
  unfold _po_tracker_workflow at h
  simp only at h
  split at h
  · simp at h
  · split at h
    · simp at h
    · rw [Prod.mk.injEq] at h
      obtain ⟨h1, h2⟩ := h
      subst h2
      refine ⟨?_, rfl, rfl, rfl⟩
      simp [Int.add_sub_cancel]

/-- On the successful exit path, the `change_manager` workflow restores its
agent slot and touches no other slot. -/
theorem cm_workflow_ok {P : Provider} {st : OrchState} {i : IntentResult}
    {e : Entities} {s x : String} {w : WorkflowResult} {st' : OrchState}
    (h : _change_manager_workflow P st i e s x = (.ok w, st')) :
    st'.agents.change_manager = ⟨"idle", max 0 st.agents.change_manager.active_tasks⟩ ∧
    st'.agents.inbox_agent = st.agents.inbox_agent ∧
    st'.agents.routing_agent = st.agents.routing_agent ∧
    st'.agents.po_tracker = st.agents.po_tracker := by
  unfold _change_manager_workflow at h
  simp only at h
  split at h
  · simp at h
  · split at h
    · simp at h
    · rw [Prod.mk.injEq] at h
      obtain ⟨h1, h2⟩ := h
      subst h2
      refine ⟨?_, rfl, rfl, rfl⟩
      simp [Int.add_sub_cancel]

/-- On the successful exit path, `_execute_workflow` restores the routed
stage agent's slot and leaves `inbox_agent`/`routing_agent` (and the other
stage agent) untouched. -/
theorem execute_workflow_ok {P : Provider} {st : OrchState} {an : String}
    {i : IntentResult} {e : Entities} {s x : String} {w : WorkflowResult}
    {st' : OrchState}
    (h : _execute_workflow P st an i e s x = (.ok w, st')) :
    st'.agents.inbox_agent = st.agents.inbox_agent ∧
    st'.agents.routing_agent = st.agents.routing_agent ∧
    (an = "po_tracker" →
      st'.agents.po_tracker = ⟨"idle", max 0 st.agents.po_tracker.active_tasks⟩ ∧
      st'.agents.change_manager = st.agents.change_manager) ∧
    (an ≠ "po_tracker" → st'.agents.po_tracker = st.agents.po_tracker) ∧
    (an = "change_manager" →
      st'.agents.change_manager = ⟨"idle", max 0 st.agents.change_manager.active_tasks⟩) ∧
    (an ≠ "po_tracker" → an ≠ "change_manager" →
      st'.agents.change_manager = st.agents.change_manager) := by
  unfold _execute_workflow at h
  by_cases hpo : an = "po_tracker"
  · rw [if_pos hpo] at h
    obtain ⟨hp1, hp2, hp3, hp4⟩ := po_workflow_ok h
    exact ⟨hp2, hp3, fun _ => ⟨hp1, hp4⟩, fun hc => absurd hpo hc,
      fun hc => absurd (hc ▸ hpo) (by decide), fun _ _ => hp4⟩
  · rw [if_neg hpo] at h
    by_cases hcm : an = "change_manager"
    · rw [if_pos hcm] at h
      obtain ⟨hc1, hc2, hc3, hc4⟩ := cm_workflow_ok h
      exact ⟨hc2, hc3, fun hc => absurd hc hpo, fun _ => hc4, fun _ => hc1,
        fun _ hc => absurd hcm hc⟩
    · rw [if_neg hcm] at h
      rw [Prod.mk.injEq] at h
      obtain ⟨h1, h2⟩ := h
      subst h2
      exact ⟨rfl, rfl, fun hc => absurd hc hpo, fun _ => rfl,
        fun hc => absurd hc hcm, fun _ _ => rfl⟩

/-- `processFail` always re-raises: its first component is the error. -/
theorem processFail_fst (st : OrchState) (e x : String) :
    (processFail st e x).1 = .error e := by
  unfold processFail
  split <;> rfl

/-- `processFail` never returns a success result. -/
theorem processFail_ne_ok {st : OrchState} {e x : String} {r : ProcessResult}
    {st' : OrchState} : processFail st e x ≠ (.ok r, st') := by
  intro h
  have h1 := congrArg Prod.fst h
  rw [processFail_fst] at h1
  cases h1

/-- C1 (amended): on the successful exit path of `process_email`, every agent
marked active is restored — `inbox_agent` and `routing_agent` always, and
the routed stage agent (`po_tracker`/`change_manager`) likewise — status
back to `"idle"`, counter decremented floored at zero; agents not involved
are untouched.  (On an exception path the marked agents are *not* restored;
see the counterexample.) -/
theorem C1_restoration_amended (E : Extractor) (C : Classifier) (P : Provider)
    (st : OrchState) (sender subject body x : String) (r : ProcessResult)
    (st' : OrchState)
    (h : process_email E C P st sender subject body x = (.ok r, st')) :
    st'.agents.inbox_agent = ⟨"idle", max 0 st.agents.inbox_agent.active_tasks⟩ ∧
    st'.agents.routing_agent = ⟨"idle", max 0 st.agents.routing_agent.active_tasks⟩ ∧
    (r.routed_agent = "po_tracker" →
      st'.agents.po_tracker = ⟨"idle", max 0 st.agents.po_tracker.active_tasks⟩) ∧
    (r.routed_agent ≠ "po_tracker" →
      st'.agents.po_tracker = st.agents.po_tracker) ∧
    (r.routed_agent = "change_manager" →
      st'.agents.change_manager =
        ⟨"idle", max 0 st.agents.change_manager.active_tasks⟩) ∧
    (r.routed_agent ≠ "po_tracker" → r.routed_agent ≠ "change_manager" →
      st'.agents.change_manager = st.agents.change_manager) := by
  unfold process_email at h
  simp only at h
  split at h
  · exact absurd h processFail_ne_ok
  split at h
  · exact absurd h processFail_ne_ok
  split at h
  · exact absurd h processFail_ne_ok
  split at h
  · exact absurd h processFail_ne_ok
  split at h
  · exact absurd h processFail_ne_ok
  rename_i entities intent_result l1 l2 wres st5 heq
  rw [Prod.mk.injEq] at h
  obtain ⟨h1, h2⟩ := h
  injection h1 with h1
  subst h1
  subst h2
  obtain ⟨hin, hro, hpo1, hpo2, hcm1, hcm2⟩ := execute_workflow_ok heq
  refine ⟨?_, ?_, ?_, ?_, ?_, ?_⟩
  · simp only [hin]
    simp [Int.add_sub_cancel]
  · simp only [hro]
    simp [Int.add_sub_cancel]
  · intro hr
    simp only at hr
    have := (hpo1 hr).1
    simpa using this
  · intro hr
    simp only at hr
    simpa using hpo2 hr
  · intro hr
    simp only at hr
    simpa using hcm1 hr
  · intro hr1 hr2
    simp only at hr1 hr2
    simpa using hcm2 hr1 hr2

/-- An entity-extractor stub that raises, for the C1 counterexample. -/
def stubExtractFail : Extractor := fun _ _ => .error "boom"

/-- A benign classifier stub (intent `general_inquiry`). -/
def stubClassify : Classifier := fun _ _ => .ok ⟨"general_inquiry", 1/2, []⟩

/-- A benign extractor stub. -/
def stubExtract : Extractor := fun _ _ => .ok ⟨some "12345", [], [], [], [], 1/2⟩

/-- C1 counterexample: when the extractor collaborator raises, the exception
path of `process_email` (its bare `except` handler logs and re-raises) does
**not** restore the registry — `inbox_agent`, already marked active with its
counter incremented, is left `"active"` with `active_tasks = 1` on exit. -/
theorem C1_counterexample :
    (process_email stubExtractFail stubClassify callOpenAI initOrch
      "s" "subj" "body" "e1").1 = .error "boom" ∧
    (process_email stubExtractFail stubClassify callOpenAI initOrch
      "s" "subj" "body" "e1").2.agents.inbox_agent = ⟨"active", 1⟩ := by
  constructor <;> rfl

/-- Witness for the amended C1: a successful run from the initial state ends
with `inbox_agent` restored to idle with a zero counter. -/
theorem C1_restoration_witness :
    (process_email stubExtract stubClassify callOpenAI initOrch
      "s" "subj" "body" "e1").2.agents.inbox_agent = ⟨"idle", 0⟩ := by
  have h1 : (process_email stubExtract stubClassify callOpenAI initOrch
      "s" "subj" "body" "e1").1 =
    .ok ⟨"e1", "general_inquiry", "inbox_agent",
      ⟨some "12345", [], [], [], [], 1/2⟩, ⟨"logged", 0, none⟩, 0⟩ := rfl
  have h : process_email stubExtract stubClassify callOpenAI initOrch
      "s" "subj" "body" "e1" =
    (.ok ⟨"e1", "general_inquiry", "inbox_agent",
        ⟨some "12345", [], [], [], [], 1/2⟩, ⟨"logged", 0, none⟩, 0⟩,
      (process_email stubExtract stubClassify callOpenAI initOrch
        "s" "subj" "body" "e1").2) := Prod.ext h1 rfl
  have hres := C1_restoration_amended stubExtract stubClassify callOpenAI initOrch
    "s" "subj" "body" "e1" _ _ h
  simpa using hres.1
